import Mathlib

/-!
# zram slot-table layout (drivers/block/zram/zram_drv.h)

A shallow embedding of the constants, enumerations and structure layouts declared in
`zram_drv.h`, and proofs of the numerical facts the driver relies on.

Conventions
* Kernel constants that the header uses but does not define (`PAGE_SHIFT`, `SECTOR_SHIFT`,
  `BITS_PER_LONG`) are parameters of the definitions that depend on them.
* `#ifdef CONFIG_...` blocks are modelled by a `Bool` parameter.
* C `int` expressions are evaluated as the kernel build evaluates them: 32-bit two's
  complement, results reduced modulo `2 ^ 32`; `unsigned long` values are naturals below
  `2 ^ BITS_PER_LONG`.
-/

namespace Zram

/-! ## C integer semantics -/

/-- Bitwise complement `~a` of a C `int` in two's complement. -/
def int_not (a : Int) : Int := -a - 1

/-- Conversion of a C `int` to `unsigned long`: reduction modulo `2 ^ BITS_PER_LONG`
(sign extension for negative values). -/
def to_ulong (BITS_PER_LONG : Nat) (v : Int) : Nat := (v % 2 ^ BITS_PER_LONG).toNat

/-- Modelled from the spec: the single-bit word `1 << nr` of an `unsigned long` (the kernel
writes it `BIT(nr)`). -/
def BIT (BITS_PER_LONG nr : Nat) : Nat := (1 <<< nr) % 2 ^ BITS_PER_LONG

/-! ## Logical-block geometry (lines 25-30) -/

/-- Modelled from the spec: `PAGE_SIZE`, defined outside this header, is `1 << PAGE_SHIFT`
taken as an `unsigned long`. -/
def PAGE_SIZE (PAGE_SHIFT : Nat) : Nat := 1 <<< PAGE_SHIFT

/-- Constant `ZRAM_FLAG_SHIFT`, defined as `(PAGE_SHIFT + 1)`. -/
def ZRAM_FLAG_SHIFT (PAGE_SHIFT : Nat) : Nat := PAGE_SHIFT + 1

/-- Enumerator `ZRAM_LOCK = ZRAM_FLAG_SHIFT`: zram slot is locked. -/
def ZRAM_LOCK (PAGE_SHIFT : Nat) : Nat := ZRAM_FLAG_SHIFT PAGE_SHIFT

/-- Enumerator `ZRAM_SAME`: page consists of the same element. -/
def ZRAM_SAME (PAGE_SHIFT : Nat) : Nat := ZRAM_LOCK PAGE_SHIFT + 1

/-- Enumerator `ZRAM_WB`: page is stored on the backing device. -/
def ZRAM_WB (PAGE_SHIFT : Nat) : Nat := ZRAM_SAME PAGE_SHIFT + 1

/-- Enumerator `ZRAM_UNDER_WB`: page is under writeback. -/
def ZRAM_UNDER_WB (PAGE_SHIFT : Nat) : Nat := ZRAM_WB PAGE_SHIFT + 1

/-- Enumerator `ZRAM_HUGE`: incompressible page. -/
def ZRAM_HUGE (PAGE_SHIFT : Nat) : Nat := ZRAM_UNDER_WB PAGE_SHIFT + 1

/-- Enumerator `ZRAM_IDLE`: page not accessed since the last idle marking. -/
def ZRAM_IDLE (PAGE_SHIFT : Nat) : Nat := ZRAM_HUGE PAGE_SHIFT + 1

/-- Enumerator `ZRAM_EXPIRE` (declared under `CONFIG_ZRAM_RAMPLUS`). -/
def ZRAM_EXPIRE (PAGE_SHIFT : Nat) : Nat := ZRAM_IDLE PAGE_SHIFT + 1

/-- Enumerator `ZRAM_PPR` (declared under `CONFIG_ZRAM_RAMPLUS`). -/
def ZRAM_PPR (PAGE_SHIFT : Nat) : Nat := ZRAM_EXPIRE PAGE_SHIFT + 1

/-- Enumerator `ZRAM_LRU` (declared under `CONFIG_ZRAM_RAMPLUS`). -/
def ZRAM_LRU (PAGE_SHIFT : Nat) : Nat := ZRAM_PPR PAGE_SHIFT + 1

/-- Enumerator `__NR_ZRAM_PAGEFLAGS`, the enumerator that follows the last declared flag. -/
def __NR_ZRAM_PAGEFLAGS (ramplus : Bool) (PAGE_SHIFT : Nat) : Nat :=
  if ramplus then ZRAM_LRU PAGE_SHIFT + 1 else ZRAM_IDLE PAGE_SHIFT + 1

/-- The flags of `enum zram_pageflags` in declaration order; the last three only exist with
`CONFIG_ZRAM_RAMPLUS`. -/
def zram_pageflags (ramplus : Bool) (PAGE_SHIFT : Nat) : List Nat :=
  [ZRAM_LOCK PAGE_SHIFT, ZRAM_SAME PAGE_SHIFT, ZRAM_WB PAGE_SHIFT, ZRAM_UNDER_WB PAGE_SHIFT,
    ZRAM_HUGE PAGE_SHIFT, ZRAM_IDLE PAGE_SHIFT] ++
  (if ramplus then [ZRAM_EXPIRE PAGE_SHIFT, ZRAM_PPR PAGE_SHIFT, ZRAM_LRU PAGE_SHIFT] else [])

/-- The higher bits of a `flags` word (header comment, lines 33-38): the `unsigned long`
obtained by OR-ing `BIT(f)` for every page flag `f` of `F`. -/
def flag_mask (BITS_PER_LONG : Nat) (F : List Nat) : Nat :=
  F.foldr (fun f acc => (BIT BITS_PER_LONG f ||| acc) % 2 ^ BITS_PER_LONG) 0

/-- The `flags` member of a slot into which size and page flags are squeezed (header
comment, lines 33-38): the `unsigned long` `size | OR_(f in F) (1 << f)`. -/
def pack_flags (BITS_PER_LONG size : Nat) (F : List Nat) : Nat :=
  (size ||| flag_mask BITS_PER_LONG F) % 2 ^ BITS_PER_LONG

/-- The object size held in the lower `ZRAM_FLAG_SHIFT` bits of a `flags` word (header
comment, lines 33-38): `w & ((1 << ZRAM_FLAG_SHIFT) - 1)`. -/
def obj_size_of (BITS_PER_LONG PAGE_SHIFT w : Nat) : Nat :=
  w &&& (BIT BITS_PER_LONG (ZRAM_FLAG_SHIFT PAGE_SHIFT) - 1)

/-! ## Ramplus constants (lines 137-145) -/

/-- Constant `ZRAM_WB_THRESHOLD`, defined as `32`. -/
def ZRAM_WB_THRESHOLD : Nat := 32

/-- Constant `NR_ZWBS`, defined as `64`. -/
def NR_ZWBS : Nat := 64

/-- Constant `NR_FALLOC_PAGES`, defined as `512`. -/
def NR_FALLOC_PAGES : Nat := 512

/-- Constant `FALLOC_ALIGN_MASK`, defined as `(~(NR_FALLOC_PAGES - 1))`, an `int`. -/
def FALLOC_ALIGN_MASK : Int := int_not ((NR_FALLOC_PAGES : Int) - 1)

/-- Constant `ZWBS_ALIGN_MASK`, defined as `(~(NR_ZWBS - 1))`, an `int`. -/
def ZWBS_ALIGN_MASK : Int := int_not ((NR_ZWBS : Int) - 1)

/-- Constant `MAX_REQ_IDX`, defined as `2042`. -/
def MAX_REQ_IDX : Nat := 2042

/-- The C expression `x & mask` for an `unsigned long` `x` and an `int` mask: the usual
arithmetic conversions turn the mask into an `unsigned long` first. -/
def ulong_and (BITS_PER_LONG x : Nat) (mask : Int) : Nat :=
  x &&& to_ulong BITS_PER_LONG mask

/-! ## Worker types (lines 147-155) -/

/-- Enumerator `PREFETCH`, the first of `enum ramplus_type`. -/
def PREFETCH : Nat := 0

/-- Enumerator `LRU_WRITEBACK` (declared under `CONFIG_ZRAM_LRU_WRITEBACK`). -/
def LRU_WRITEBACK : Nat := PREFETCH + 1

/-- Enumerator `WRITEBACK`, which follows `LRU_WRITEBACK` when that one is declared and
`PREFETCH` otherwise. -/
def WRITEBACK (lru_writeback : Bool) : Nat :=
  if lru_writeback then LRU_WRITEBACK + 1 else PREFETCH + 1

/-- Enumerator `POOL`. -/
def POOL (lru_writeback : Bool) : Nat := WRITEBACK lru_writeback + 1

/-- Enumerator `NR_RAMPLUS_TYPES`, the last of `enum ramplus_type`. -/
def NR_RAMPLUS_TYPES (lru_writeback : Bool) : Nat := POOL lru_writeback + 1

/-- The worker types of `enum ramplus_type` in declaration order; `LRU_WRITEBACK` only
exists with `CONFIG_ZRAM_LRU_WRITEBACK`. -/
def ramplus_type (lru_writeback : Bool) : List Nat :=
  [PREFETCH] ++ (if lru_writeback then [LRU_WRITEBACK] else []) ++
    [WRITEBACK lru_writeback, POOL lru_writeback]

/-! ## Structures (lines 157-209, 264) -/

/-- A C array `T a[n]`: exactly `n` elements. -/
abbrev CArray (α : Type) (n : Nat) : Type := { a : Array α // a.size = n }

/-- Element `a[i]` of a C array, when `i` is a valid index. -/
def CArray.read {α : Type} {n : Nat} (a : CArray α n) (i : Nat) : Option α := a.val[i]?

/-- Number of elements of a C array. -/
def CArray.length {α : Type} {n : Nat} (a : CArray α n) : Nat := a.val.size

/-- Record `struct zram_wb_entry`. -/
structure zram_wb_entry where
  index : Nat
  offset : Nat
  size : Nat

/-- Record `struct zwbs`: one writeback page buffer. Pointers are addresses. -/
structure zwbs where
  entry : CArray zram_wb_entry ZRAM_WB_THRESHOLD
  page : Nat
  cnt : Nat
  off : Nat

/-- Record `struct zram_writeback_buffer`: the page buffers of one work item. -/
structure zram_writeback_buffer where
  zwbs : CArray Nat NR_ZWBS
  idx : Int

/-- Record `struct zram_wb_work`; the embedded `work_struct` and `list_head` carry no
data of the batcher and are left out. -/
structure zram_wb_work where
  src_page : CArray Nat NR_ZWBS
  dst_page : Nat
  bio : Nat
  bio_chain : Nat
  buf : Nat
  zram : Nat
  handle : Nat
  nr_pages : Int

/-- Record `struct zram_ramplus`: the state of one worker; the embedded kernel objects
(`work_struct`, `list_head`, wait queue, spinlock) are left out. -/
structure zram_ramplus where
  task : Nat
  nr : Int
  running : Bool

/-- The member `struct zram_ramplus ramplus[NR_RAMPLUS_TYPES]` of `struct zram`. -/
structure zram (lru_writeback : Bool) where
  ramplus : CArray zram_ramplus (NR_RAMPLUS_TYPES lru_writeback)

/-! ## Structure layout -/

/-- Size and alignment of a C object type, in bytes. -/
structure CType where
  size : Nat
  align : Nat

/-- Smallest multiple of `a` that is at least `off`. -/
def align_up (off a : Nat) : Nat := (off + a - 1) / a * a

/-- The array type `T[n]`. -/
def c_array (t : CType) (n : Nat) : CType := ⟨t.size * n, t.align⟩

/-- Offset just past the last member when the members are laid out in order, each at the
next offset that satisfies its alignment. -/
def struct_end (members : List CType) : Nat :=
  members.foldl (fun off t => align_up off t.align + t.size) 0

/-- Alignment of a structure: the largest alignment of its members. -/
def struct_align (members : List CType) : Nat :=
  members.foldl (fun a t => max a t.align) 1

/-- The structure type with the given members: trailing padding rounds the size up to the
alignment. -/
def c_struct (members : List CType) : CType :=
  ⟨align_up (struct_end members) (struct_align members), struct_align members⟩

/-- Sum of the sizes of the members, the size a structure has without any padding. -/
def members_size (members : List CType) : Nat := (members.map CType.size).sum

/-- The type `int`: 4 bytes. -/
def c_int : CType := ⟨4, 4⟩

/-- The type `u32`: 4 bytes. -/
def c_u32 : CType := ⟨4, 4⟩

/-- A pointer type of `ptr` bytes. -/
def c_pointer (ptr : Nat) : CType := ⟨ptr, ptr⟩

/-- Modelled from the spec: `struct list_head`, declared outside this header, is two
pointers (16 bytes with 8-byte pointers). -/
def list_head (ptr : Nat) : CType := c_struct [c_pointer ptr, c_pointer ptr]

/-- Members of `struct zram_request` with an `index` array of `n` elements:
`list`, `first`, `last`, `index[n]`. -/
def zram_request_members (ptr n : Nat) : List CType :=
  [list_head ptr, c_int, c_int, c_array c_u32 n]

/-- The type `struct zram_request` with an `index` array of `n` elements. -/
def zram_request (ptr n : Nat) : CType := c_struct (zram_request_members ptr n)

/-! ## Slot table (lines 65-77) and its state machine -/

/-- Record `struct zram_table_entry`: the anonymous union of `handle` and `element` is one
word, here called `handle`; the optional members `ac_time` and `list` carry no storage
state and are left out. -/
structure zram_table_entry where
  handle : Nat
  flags : Nat
deriving DecidableEq

/-- Modelled from the spec: the accessor that tests one page flag of a slot; the driver
source that defines the accessors is not part of the header. -/
def zram_test_flag (e : zram_table_entry) (flag : Nat) : Bool := e.flags.testBit flag

/-- Modelled from the spec: setting one page flag, `flags |= BIT(flag)`. -/
def zram_set_flag (BITS_PER_LONG : Nat) (e : zram_table_entry) (flag : Nat) :
    zram_table_entry :=
  { e with flags := (e.flags ||| BIT BITS_PER_LONG flag) % 2 ^ BITS_PER_LONG }

/-- Modelled from the spec: clearing one page flag, `flags &= ~BIT(flag)`. -/
def zram_clear_flag (BITS_PER_LONG : Nat) (e : zram_table_entry) (flag : Nat) :
    zram_table_entry :=
  { e with flags := e.flags &&& (2 ^ BITS_PER_LONG - 1 - BIT BITS_PER_LONG flag) }

/-- Modelled from the spec: storing the object size in the low `ZRAM_FLAG_SHIFT` bits and
keeping the flags above them. -/
def zram_set_obj_size (BITS_PER_LONG PAGE_SHIFT : Nat) (e : zram_table_entry) (size : Nat) :
    zram_table_entry :=
  { e with flags :=
      (((e.flags >>> ZRAM_FLAG_SHIFT PAGE_SHIFT) <<< ZRAM_FLAG_SHIFT PAGE_SHIFT) ||| size) %
        2 ^ BITS_PER_LONG }

/-- Modelled from the spec: a slot reset to empty on free. Every flag but `LOCKED`, which
the caller holds, is dropped, and so are the size and the locator. -/
def zram_free_page (BITS_PER_LONG PAGE_SHIFT : Nat) (e : zram_table_entry) :
    zram_table_entry :=
  { handle := 0, flags := e.flags &&& BIT BITS_PER_LONG (ZRAM_LOCK PAGE_SHIFT) }

/-- Modelled from the spec: the tagged variant a slot stands for (section 9 of the
specification). -/
inductive slot_repr where
  | Empty
  | Resident (handle size : Nat)
  | Same (element : Nat)
  | WrittenBack (blockIndex : Nat)
deriving DecidableEq

/-- Modelled from the spec: the representation of a slot as determined by its flags word:
written-back when `WRITTEN_BACK` is set, same-element when `SAME_ELEMENT` is set, resident
when neither is set and the locator is an object-store handle, empty otherwise. -/
def slot_view (BITS_PER_LONG PAGE_SHIFT : Nat) (e : zram_table_entry) : slot_repr :=
  if zram_test_flag e (ZRAM_WB PAGE_SHIFT) then slot_repr.WrittenBack e.handle
  else if zram_test_flag e (ZRAM_SAME PAGE_SHIFT) then slot_repr.Same e.handle
  else if e.handle ≠ 0 then
    slot_repr.Resident e.handle (obj_size_of BITS_PER_LONG PAGE_SHIFT e.flags)
  else slot_repr.Empty

/-- Modelled from the spec: the events that move a slot through the state machine of
section 4.1 of the specification, and the flag operations of section 3. -/
inductive slot_event where
  | write_same (element : Nat)
  | write_compressed (handle size : Nat) (huge : Bool)
  | select_for_writeback
  | writeback_done (blockIndex : Nat)
  | writeback_failed
  | prefetch_done (handle size : Nat)
  | prefetch_failed
  | free
  | lock
  | unlock
  | mark_idle
deriving DecidableEq

/-- Modelled from the spec: one transition of a slot (section 4.1).
* write of a uniform-element page: any state to `SAME`, the prior content is freed;
* write of a compressible page: to `RESIDENT`, with the allocated object and its size,
  marked `HUGE` when the write path classified the page as incompressible;
* a resident slot selected for eviction: to `UNDER_WRITEBACK`;
* I/O success: `UNDER_WRITEBACK` to `WRITTEN_BACK`, the locator becomes the block index;
* I/O failure: back to `RESIDENT`, unchanged;
* prefetch success: `WRITTEN_BACK` to `RESIDENT`; prefetch failure: stays `WRITTEN_BACK`;
* explicit free: any state to `EMPTY`;
* lock, unlock and idle marking only touch their own flag.
An event that does not apply in the current state leaves the slot unchanged. -/
def slot_step (BITS_PER_LONG PAGE_SHIFT : Nat) (e : zram_table_entry) :
    slot_event → zram_table_entry
  | .write_same element =>
    zram_set_flag BITS_PER_LONG
      { zram_free_page BITS_PER_LONG PAGE_SHIFT e with handle := element }
      (ZRAM_SAME PAGE_SHIFT)
  | .write_compressed handle size huge =>
    if handle ≠ 0 ∧ size ≤ PAGE_SIZE PAGE_SHIFT then
      let e1 := zram_set_obj_size BITS_PER_LONG PAGE_SHIFT
        { zram_free_page BITS_PER_LONG PAGE_SHIFT e with handle := handle } size
      if huge then zram_set_flag BITS_PER_LONG e1 (ZRAM_HUGE PAGE_SHIFT) else e1
    else e
  | .select_for_writeback =>
    if zram_test_flag e (ZRAM_WB PAGE_SHIFT) = false ∧
        zram_test_flag e (ZRAM_SAME PAGE_SHIFT) = false ∧ e.handle ≠ 0 then
      zram_set_flag BITS_PER_LONG e (ZRAM_UNDER_WB PAGE_SHIFT)
    else e
  | .writeback_done blockIndex =>
    if zram_test_flag e (ZRAM_UNDER_WB PAGE_SHIFT) then
      zram_set_flag BITS_PER_LONG
        { zram_clear_flag BITS_PER_LONG e (ZRAM_UNDER_WB PAGE_SHIFT) with
            handle := blockIndex }
        (ZRAM_WB PAGE_SHIFT)
    else e
  | .writeback_failed => zram_clear_flag BITS_PER_LONG e (ZRAM_UNDER_WB PAGE_SHIFT)
  | .prefetch_done handle size =>
    if zram_test_flag e (ZRAM_WB PAGE_SHIFT) = true ∧ handle ≠ 0 ∧
        size ≤ PAGE_SIZE PAGE_SHIFT then
      zram_set_obj_size BITS_PER_LONG PAGE_SHIFT
        { zram_clear_flag BITS_PER_LONG e (ZRAM_WB PAGE_SHIFT) with handle := handle } size
    else e
  | .prefetch_failed => e
  | .free => zram_free_page BITS_PER_LONG PAGE_SHIFT e
  | .lock => zram_set_flag BITS_PER_LONG e (ZRAM_LOCK PAGE_SHIFT)
  | .unlock => zram_clear_flag BITS_PER_LONG e (ZRAM_LOCK PAGE_SHIFT)
  | .mark_idle => zram_set_flag BITS_PER_LONG e (ZRAM_IDLE PAGE_SHIFT)

/-- Modelled from the spec: a slot of a freshly configured device, empty with no flag
set. -/
def slot_init : zram_table_entry := { handle := 0, flags := 0 }

/-- Modelled from the spec: the slot observed after a history of events, starting from a
freshly configured device. -/
def slot_after (BITS_PER_LONG PAGE_SHIFT : Nat) (history : List slot_event) :
    zram_table_entry :=
  history.foldl (slot_step BITS_PER_LONG PAGE_SHIFT) slot_init

/-- Invariant of the slot state machine: `SAME_ELEMENT` and `WRITTEN_BACK` exclude each
other, and a slot under writeback is neither. -/
def slot_inv (PAGE_SHIFT : Nat) (e : zram_table_entry) : Prop :=
  (zram_test_flag e (ZRAM_SAME PAGE_SHIFT) = true →
    zram_test_flag e (ZRAM_WB PAGE_SHIFT) = false) ∧
  (zram_test_flag e (ZRAM_UNDER_WB PAGE_SHIFT) = true →
    zram_test_flag e (ZRAM_SAME PAGE_SHIFT) = false ∧
    zram_test_flag e (ZRAM_WB PAGE_SHIFT) = false)

/-- Modelled from the spec: the slot is in the same-element representation. -/
def is_same_element (PAGE_SHIFT : Nat) (e : zram_table_entry) : Bool :=
  zram_test_flag e (ZRAM_SAME PAGE_SHIFT)

/-- Modelled from the spec: the slot is in the written-back representation. -/
def is_written_back (PAGE_SHIFT : Nat) (e : zram_table_entry) : Bool :=
  zram_test_flag e (ZRAM_WB PAGE_SHIFT)

/-- Modelled from the spec: the slot is read as holding an object-store handle
(resident-compressed). -/
def is_resident (BITS_PER_LONG PAGE_SHIFT : Nat) (e : zram_table_entry) : Bool :=
  match slot_view BITS_PER_LONG PAGE_SHIFT e with
  | slot_repr.Resident _ _ => true
  | _ => false

/-- Number of representations among resident-compressed, same-element and written-back
that are valid for a slot. -/
def valid_representations (BITS_PER_LONG PAGE_SHIFT : Nat) (e : zram_table_entry) : Nat :=
  (is_resident BITS_PER_LONG PAGE_SHIFT e).toNat + (is_same_element PAGE_SHIFT e).toNat +
    (is_written_back PAGE_SHIFT e).toNat

/-! ## Example values -/

/-- An empty page buffer: 32 zeroed entries, no page, nothing written. -/
def zwbs_zero : zwbs :=
  ⟨⟨Array.mkArray ZRAM_WB_THRESHOLD ⟨0, 0, 0⟩, Array.size_mkArray _ _⟩, 0, 0, 0⟩

/-- A writeback buffer with 64 null page-buffer pointers. -/
def zram_writeback_buffer_zero : zram_writeback_buffer :=
  ⟨⟨Array.mkArray NR_ZWBS 0, Array.size_mkArray _ _⟩, 0⟩

/-- A work item with 64 null source-page pointers. -/
def zram_wb_work_zero : zram_wb_work :=
  ⟨⟨Array.mkArray NR_ZWBS 0, Array.size_mkArray _ _⟩, 0, 0, 0, 0, 0, 0, 0⟩

/-- A device whose workers are all stopped. -/
def zram_zero (lru_writeback : Bool) : zram lru_writeback :=
  ⟨⟨Array.mkArray (NR_RAMPLUS_TYPES lru_writeback) ⟨0, 0, false⟩, Array.size_mkArray _ _⟩⟩

/-! ## Bit-level helper facts -/

theorem testBit_BIT (B nr j : Nat) :
    (BIT B nr).testBit j = (decide (j < B) && decide (nr = j)) := by
  unfold BIT
  rw [Nat.testBit_mod_two_pow, Nat.one_shiftLeft, Nat.testBit_two_pow]

theorem testBit_flag_mask (B : Nat) (F : List Nat) (j : Nat) :
    (flag_mask B F).testBit j = (decide (j < B) && decide (j ∈ F)) := by
  induction F with
  | nil => simp [flag_mask]
  | cons f F ih =>
    have hstep : flag_mask B (f :: F) = (BIT B f ||| flag_mask B F) % 2 ^ B := rfl
    rw [hstep, Nat.testBit_mod_two_pow, Nat.testBit_or, ih, testBit_BIT]
    by_cases h1 : j < B <;> by_cases h2 : f = j <;> by_cases h3 : j ∈ F <;>
      simp [h1, h2, h3]
    all_goals (intro h; exact absurd h.symm h2)

theorem testBit_pack_flags (B size : Nat) (F : List Nat) (j : Nat) :
    (pack_flags B size F).testBit j =
      (decide (j < B) && (size.testBit j || decide (j ∈ F))) := by
  unfold pack_flags
  rw [Nat.testBit_mod_two_pow, Nat.testBit_or, testBit_flag_mask]
  by_cases h1 : j < B <;> simp [h1]

theorem mem_zram_pageflags_bounds (ramplus : Bool) (PS f : Nat)
    (hf : f ∈ zram_pageflags ramplus PS) :
    ZRAM_FLAG_SHIFT PS ≤ f ∧ f < __NR_ZRAM_PAGEFLAGS ramplus PS := by
  cases ramplus <;>
    simp [zram_pageflags, __NR_ZRAM_PAGEFLAGS, ZRAM_LRU, ZRAM_PPR, ZRAM_EXPIRE, ZRAM_IDLE,
      ZRAM_HUGE, ZRAM_UNDER_WB, ZRAM_WB, ZRAM_SAME, ZRAM_LOCK, ZRAM_FLAG_SHIFT] at hf ⊢ <;>
    omega

theorem page_size_lt_flag_shift (PS s : Nat) (hs : s ≤ PAGE_SIZE PS) :
    s < 2 ^ ZRAM_FLAG_SHIFT PS := by
  have h1 : PAGE_SIZE PS = 2 ^ PS := by simp [PAGE_SIZE, Nat.one_shiftLeft]
  have h2 : 2 ^ ZRAM_FLAG_SHIFT PS = 2 * 2 ^ PS := by
    simp [ZRAM_FLAG_SHIFT, Nat.pow_succ, Nat.mul_comm]
  have h3 : 0 < 2 ^ PS := Nat.pos_pow_of_pos PS (by decide)
  omega

/-! ## Page flags -/

/-- C3: the page flags are pairwise distinct consecutive bit positions starting at
`ZRAM_FLAG_SHIFT = PAGE_SHIFT + 1`; `__NR_ZRAM_PAGEFLAGS` is `PAGE_SHIFT + 10` with
`CONFIG_ZRAM_RAMPLUS` and `PAGE_SHIFT + 7` without; for `PAGE_SHIFT` in `12 .. 16` it does
not exceed `BITS_PER_LONG`, be it 32 or 64. -/
theorem zram_pageflags_no_overflow (ramplus : Bool) (PAGE_SHIFT : Nat) :
    (zram_pageflags ramplus PAGE_SHIFT).Nodup ∧
    zram_pageflags ramplus PAGE_SHIFT =
      List.range' (ZRAM_FLAG_SHIFT PAGE_SHIFT) (if ramplus then 9 else 6) ∧
    ZRAM_FLAG_SHIFT PAGE_SHIFT = PAGE_SHIFT + 1 ∧
    ZRAM_LOCK PAGE_SHIFT = ZRAM_FLAG_SHIFT PAGE_SHIFT ∧
    __NR_ZRAM_PAGEFLAGS ramplus PAGE_SHIFT = (if ramplus then PAGE_SHIFT + 10 else PAGE_SHIFT + 7) ∧
    (12 ≤ PAGE_SHIFT → PAGE_SHIFT ≤ 16 →
      __NR_ZRAM_PAGEFLAGS ramplus PAGE_SHIFT ≤ 32 ∧ __NR_ZRAM_PAGEFLAGS ramplus PAGE_SHIFT ≤ 64) := by
  have hlist : zram_pageflags ramplus PAGE_SHIFT =
      List.range' (ZRAM_FLAG_SHIFT PAGE_SHIFT) (if ramplus then 9 else 6) := by
    cases ramplus <;>
      simp [zram_pageflags, ZRAM_LRU, ZRAM_PPR, ZRAM_EXPIRE, ZRAM_IDLE, ZRAM_HUGE,
        ZRAM_UNDER_WB, ZRAM_WB, ZRAM_SAME, ZRAM_LOCK, ZRAM_FLAG_SHIFT, List.range']
  have hnr : __NR_ZRAM_PAGEFLAGS ramplus PAGE_SHIFT =
      (if ramplus then PAGE_SHIFT + 10 else PAGE_SHIFT + 7) := by
    cases ramplus <;>
      simp [__NR_ZRAM_PAGEFLAGS, ZRAM_LRU, ZRAM_PPR, ZRAM_EXPIRE, ZRAM_IDLE, ZRAM_HUGE,
        ZRAM_UNDER_WB, ZRAM_WB, ZRAM_SAME, ZRAM_LOCK, ZRAM_FLAG_SHIFT]
  refine ⟨?_, hlist, rfl, rfl, hnr, ?_⟩
  · rw [hlist]; exact List.nodup_range' _ _
  · intro h12 h16
    rw [hnr]
    cases ramplus <;> simp <;> omega

/-- Witness for C3: 64 kB pages (`PAGE_SHIFT = 16`) with `CONFIG_ZRAM_RAMPLUS`. -/
theorem zram_pageflags_no_overflow_witness :
    12 ≤ 16 ∧ 16 ≤ 16 ∧ __NR_ZRAM_PAGEFLAGS true 16 ≤ 32 ∧ __NR_ZRAM_PAGEFLAGS true 16 ≤ 64 :=
  ⟨by decide, by decide,
    (zram_pageflags_no_overflow true 16).2.2.2.2.2 (by decide) (by decide)⟩

/-- C2: size and page flags share the `flags` word without interfering. For a size
`s ≤ PAGE_SIZE` and a set `F` of page flags, the size part of the packed word is `s` and
bit `f` of the word is set exactly when `f` is in `F`; every such size is below
`2 ^ ZRAM_FLAG_SHIFT` and every flag is a bit position at or above `ZRAM_FLAG_SHIFT`. The
`flags` word is an `unsigned long`, wide enough for the flags (the build-time check the
header comment refers to). -/
theorem size_and_flags_independent (ramplus : Bool) (BITS_PER_LONG PAGE_SHIFT s : Nat)
    (F : List Nat)
    (hbuild : __NR_ZRAM_PAGEFLAGS ramplus PAGE_SHIFT ≤ BITS_PER_LONG)
    (hs : s ≤ PAGE_SIZE PAGE_SHIFT)
    (hF : ∀ f ∈ F, f ∈ zram_pageflags ramplus PAGE_SHIFT) :
    obj_size_of BITS_PER_LONG PAGE_SHIFT (pack_flags BITS_PER_LONG s F) = s ∧
    (∀ f ∈ zram_pageflags ramplus PAGE_SHIFT,
      (pack_flags BITS_PER_LONG s F).testBit f = true ↔ f ∈ F) ∧
    s < 2 ^ ZRAM_FLAG_SHIFT PAGE_SHIFT ∧
    (∀ f ∈ zram_pageflags ramplus PAGE_SHIFT, ZRAM_FLAG_SHIFT PAGE_SHIFT ≤ f) := by
  have hslt := page_size_lt_flag_shift PAGE_SHIFT s hs
  have hfs : ZRAM_FLAG_SHIFT PAGE_SHIFT < BITS_PER_LONG := by
    have := mem_zram_pageflags_bounds ramplus PAGE_SHIFT (ZRAM_LOCK PAGE_SHIFT)
      (by simp [zram_pageflags])
    simp only [ZRAM_LOCK] at this
    omega
  refine ⟨?_, ?_, hslt, fun f hf => (mem_zram_pageflags_bounds ramplus PAGE_SHIFT f hf).1⟩
  · have hbit : BIT BITS_PER_LONG (ZRAM_FLAG_SHIFT PAGE_SHIFT) = 2 ^ ZRAM_FLAG_SHIFT PAGE_SHIFT := by
      unfold BIT
      rw [Nat.one_shiftLeft]
      exact Nat.mod_eq_of_lt (Nat.pow_lt_pow_right (by decide) hfs)
    unfold obj_size_of
    rw [hbit, Nat.and_pow_two_sub_one_eq_mod]
    apply Nat.eq_of_testBit_eq
    intro j
    rw [Nat.testBit_mod_two_pow, testBit_pack_flags]
    by_cases hj : j < ZRAM_FLAG_SHIFT PAGE_SHIFT
    · have hjB : j < BITS_PER_LONG := by omega
      have hjF : j ∉ F := fun h =>
        absurd (mem_zram_pageflags_bounds ramplus PAGE_SHIFT j (hF j h)).1 (by omega)
      simp [hj, hjB, hjF]
    · have hle : 2 ^ ZRAM_FLAG_SHIFT PAGE_SHIFT ≤ 2 ^ j :=
        Nat.pow_le_pow_right (by decide) (by omega)
      have : s.testBit j = false := Nat.testBit_lt_two_pow (by omega)
      simp [hj, this]
  · intro f hf
    have hb := mem_zram_pageflags_bounds ramplus PAGE_SHIFT f hf
    have hfB : f < BITS_PER_LONG := by omega
    have hle : 2 ^ ZRAM_FLAG_SHIFT PAGE_SHIFT ≤ 2 ^ f := Nat.pow_le_pow_right (by decide) hb.1
    have : s.testBit f = false := Nat.testBit_lt_two_pow (by omega)
    rw [testBit_pack_flags]
    simp [hfB, this]

/-- Witness for C2: a 4 kB page (`PAGE_SHIFT = 12`) on a 64-bit kernel with
`CONFIG_ZRAM_RAMPLUS`, size `PAGE_SIZE`, flags `ZRAM_SAME` and `ZRAM_HUGE`. -/
theorem size_and_flags_independent_witness :
    obj_size_of 64 12 (pack_flags 64 4096 [ZRAM_SAME 12, ZRAM_HUGE 12]) = 4096 ∧
    (∀ f ∈ zram_pageflags true 12,
      (pack_flags 64 4096 [ZRAM_SAME 12, ZRAM_HUGE 12]).testBit f = true ↔
        f ∈ [ZRAM_SAME 12, ZRAM_HUGE 12]) ∧
    4096 < 2 ^ ZRAM_FLAG_SHIFT 12 ∧
    (∀ f ∈ zram_pageflags true 12, ZRAM_FLAG_SHIFT 12 ≤ f) :=
  size_and_flags_independent true 64 12 4096 [ZRAM_SAME 12, ZRAM_HUGE 12]
    (by decide) (by decide) (by decide)

/-! ## Alignment masks -/

theorem to_ulong_neg_two_pow (B k : Nat) (hk : k ≤ B) :
    to_ulong B (-(2 ^ k : Int)) = 2 ^ B - 2 ^ k := by
  unfold to_ulong
  have hle : (2 : Nat) ^ k ≤ 2 ^ B := Nat.pow_le_pow_right (by decide) hk
  have hpos : 0 < (2 : Nat) ^ k := Nat.pos_pow_of_pos k (by decide)
  have hcast : (-(2 ^ k : Int)) + 1 * (2 ^ B : Int) = ((2 ^ B - 2 ^ k : Nat) : Int) := by
    push_cast [Nat.cast_sub hle]
    ring
  have hmod : (-(2 ^ k : Int)) % (2 ^ B : Int) = ((2 ^ B - 2 ^ k : Nat) : Int) := by
    rw [← Int.add_mul_emod_self, hcast]
    have h2 : ((2 : Int) ^ B) = ((2 ^ B : Nat) : Int) := by push_cast; rfl
    rw [h2, ← Int.natCast_mod, Nat.mod_eq_of_lt (by omega)]
  rw [hmod, Int.toNat_natCast]

theorem and_two_pow_sub_two_pow (B k x : Nat) (hk : k ≤ B) (hx : x < 2 ^ B) :
    x &&& (2 ^ B - 2 ^ k) = x / 2 ^ k * 2 ^ k := by
  have hpos : 0 < (2 : Nat) ^ k := Nat.pos_pow_of_pos k (by decide)
  have hle : (2 : Nat) ^ k ≤ 2 ^ B := Nat.pow_le_pow_right (by decide) hk
  have hmask : 2 ^ B - 2 ^ k = 2 ^ B - ((2 ^ k - 1) + 1) := by omega
  apply Nat.eq_of_testBit_eq
  intro j
  rw [Nat.testBit_and, hmask, Nat.testBit_two_pow_sub_succ (by omega),
    Nat.testBit_two_pow_sub_one, Nat.mul_comm, Nat.testBit_mul_pow_two,
    ← Nat.shiftRight_eq_div_pow, Nat.testBit_shiftRight]
  by_cases hjk : j < k
  · have : ¬ (j ≥ k) := by omega
    simp [hjk, this]
  · have hge : j ≥ k := by omega
    have hidx : k + (j - k) = j := by omega
    rw [hidx]
    by_cases hjB : j < B
    · simp [hjk, hge, hjB]
    · have hlt : x < 2 ^ j :=
        Nat.lt_of_lt_of_le hx (Nat.pow_le_pow_right (by decide) (by omega))
      simp [hjk, hge, hjB, Nat.testBit_lt_two_pow hlt]

/-- C6: for an `unsigned long` block index `x`, `x & ZWBS_ALIGN_MASK` is the greatest
multiple of `NR_ZWBS` (64) not above `x`, so `x - (x & ZWBS_ALIGN_MASK) < 64` and masking is
idempotent; `x & FALLOC_ALIGN_MASK` is the greatest multiple of `NR_FALLOC_PAGES` (512) not
above `x`. The masks are the `int` values `-64` and `-512`, sign-extended to
`unsigned long`. -/
theorem align_masks_round_down (BITS_PER_LONG x : Nat) (hbits : 32 ≤ BITS_PER_LONG)
    (hx : x < 2 ^ BITS_PER_LONG) :
    (NR_ZWBS = 64 ∧ ZWBS_ALIGN_MASK = -64 ∧
      to_ulong BITS_PER_LONG ZWBS_ALIGN_MASK = 2 ^ BITS_PER_LONG - 64 ∧
      NR_ZWBS ∣ ulong_and BITS_PER_LONG x ZWBS_ALIGN_MASK ∧
      ulong_and BITS_PER_LONG x ZWBS_ALIGN_MASK ≤ x ∧
      (∀ m, NR_ZWBS ∣ m → m ≤ x → m ≤ ulong_and BITS_PER_LONG x ZWBS_ALIGN_MASK) ∧
      x - ulong_and BITS_PER_LONG x ZWBS_ALIGN_MASK < 64 ∧
      ulong_and BITS_PER_LONG (ulong_and BITS_PER_LONG x ZWBS_ALIGN_MASK) ZWBS_ALIGN_MASK =
        ulong_and BITS_PER_LONG x ZWBS_ALIGN_MASK) ∧
    (NR_FALLOC_PAGES = 512 ∧ FALLOC_ALIGN_MASK = -512 ∧
      to_ulong BITS_PER_LONG FALLOC_ALIGN_MASK = 2 ^ BITS_PER_LONG - 512 ∧
      NR_FALLOC_PAGES ∣ ulong_and BITS_PER_LONG x FALLOC_ALIGN_MASK ∧
      ulong_and BITS_PER_LONG x FALLOC_ALIGN_MASK ≤ x ∧
      (∀ m, NR_FALLOC_PAGES ∣ m → m ≤ x → m ≤ ulong_and BITS_PER_LONG x FALLOC_ALIGN_MASK) ∧
      x - ulong_and BITS_PER_LONG x FALLOC_ALIGN_MASK < 512 ∧
      ulong_and BITS_PER_LONG (ulong_and BITS_PER_LONG x FALLOC_ALIGN_MASK) FALLOC_ALIGN_MASK =
        ulong_and BITS_PER_LONG x FALLOC_ALIGN_MASK) := by
  have hz : ZWBS_ALIGN_MASK = -(2 ^ 6 : Int) := by decide
  have hf : FALLOC_ALIGN_MASK = -(2 ^ 9 : Int) := by decide
  have hzu : to_ulong BITS_PER_LONG ZWBS_ALIGN_MASK = 2 ^ BITS_PER_LONG - 2 ^ 6 := by
    rw [hz]; exact to_ulong_neg_two_pow _ _ (by omega)
  have hfu : to_ulong BITS_PER_LONG FALLOC_ALIGN_MASK = 2 ^ BITS_PER_LONG - 2 ^ 9 := by
    rw [hf]; exact to_ulong_neg_two_pow _ _ (by omega)
  have hzr : ∀ y, y < 2 ^ BITS_PER_LONG →
      ulong_and BITS_PER_LONG y ZWBS_ALIGN_MASK = y / 64 * 64 := by
    intro y hy
    unfold ulong_and
    rw [hzu]
    exact and_two_pow_sub_two_pow BITS_PER_LONG 6 y (by omega) hy
  have hfr : ∀ y, y < 2 ^ BITS_PER_LONG →
      ulong_and BITS_PER_LONG y FALLOC_ALIGN_MASK = y / 512 * 512 := by
    intro y hy
    unfold ulong_and
    rw [hfu]
    exact and_two_pow_sub_two_pow BITS_PER_LONG 9 y (by omega) hy
  have hz1 : x / 64 * 64 < 2 ^ BITS_PER_LONG := by omega
  have hf1 : x / 512 * 512 < 2 ^ BITS_PER_LONG := by omega
  refine ⟨⟨rfl, by decide, hzu, ?_, ?_, ?_, ?_, ?_⟩, ⟨rfl, by decide, hfu, ?_, ?_, ?_, ?_, ?_⟩⟩
  · rw [hzr x hx]; exact ⟨x / 64, by simp [NR_ZWBS, Nat.mul_comm]⟩
  · rw [hzr x hx]; omega
  · intro m hm hmx
    rw [hzr x hx]
    obtain ⟨c, rfl⟩ := hm
    simp only [NR_ZWBS] at hmx ⊢
    omega
  · rw [hzr x hx]; omega
  · rw [hzr x hx, hzr _ hz1]; omega
  · rw [hfr x hx]; exact ⟨x / 512, by simp [NR_FALLOC_PAGES, Nat.mul_comm]⟩
  · rw [hfr x hx]; omega
  · intro m hm hmx
    rw [hfr x hx]
    obtain ⟨c, rfl⟩ := hm
    simp only [NR_FALLOC_PAGES] at hmx ⊢
    omega
  · rw [hfr x hx]; omega
  · rw [hfr x hx, hfr _ hf1]; omega

/-- Witness for C6: block index 1000 on a 64-bit kernel. -/
theorem align_masks_round_down_witness :
    32 ≤ 64 ∧ 1000 < 2 ^ 64 ∧
    NR_ZWBS ∣ ulong_and 64 1000 ZWBS_ALIGN_MASK ∧
    1000 - ulong_and 64 1000 ZWBS_ALIGN_MASK < 64 ∧
    NR_FALLOC_PAGES ∣ ulong_and 64 1000 FALLOC_ALIGN_MASK ∧
    1000 - ulong_and 64 1000 FALLOC_ALIGN_MASK < 512 :=
  ⟨by decide, by decide,
    (align_masks_round_down 64 1000 (by decide) (by decide)).1.2.2.2.1,
    (align_masks_round_down 64 1000 (by decide) (by decide)).1.2.2.2.2.2.2.1,
    (align_masks_round_down 64 1000 (by decide) (by decide)).2.2.2.2.1,
    (align_masks_round_down 64 1000 (by decide) (by decide)).2.2.2.2.2.2.2.1⟩

/-! ## Request batch layout -/

theorem zram_request_size (n : Nat) :
    (zram_request 8 n).size = (24 + 4 * n + 7) / 8 * 8 := by
  simp [zram_request, zram_request_members, c_struct, struct_end, struct_align, list_head,
    c_pointer, c_int, c_u32, c_array, align_up]

/-- C5: a request batch has room for `MAX_REQ_IDX = 2042` slot indices and occupies exactly
8 kB. With 8-byte pointers and 4-byte `int`/`u32` its size is
`16 + 4 + 4 + 4 * 2042 = 8192` bytes without padding, and 2042 is the largest length of
the index array for which the structure does not exceed 8192 bytes. -/
theorem zram_request_is_8kB :
    MAX_REQ_IDX = 2042 ∧
    (list_head 8).size = 16 ∧
    (zram_request 8 MAX_REQ_IDX).size = 8192 ∧
    members_size (zram_request_members 8 MAX_REQ_IDX) = 16 + 4 + 4 + 4 * 2042 ∧
    members_size (zram_request_members 8 MAX_REQ_IDX) = (zram_request 8 MAX_REQ_IDX).size ∧
    (∀ n, (zram_request 8 n).size ≤ 8192 ↔ n ≤ MAX_REQ_IDX) := by
  refine ⟨rfl, by decide, by rw [zram_request_size]; decide, by decide, ?_, ?_⟩
  · rw [zram_request_size]; decide
  · intro n
    rw [zram_request_size]
    simp only [MAX_REQ_IDX]
    omega

/-- Witness for C5: one index more (2043) makes the structure larger than 8 kB, while
2042 indices fit. -/
theorem zram_request_is_8kB_witness :
    ¬ (zram_request 8 2043).size ≤ 8192 ∧ (zram_request 8 2042).size ≤ 8192 :=
  ⟨fun h => absurd ((zram_request_is_8kB.2.2.2.2.2 2043).mp h) (by decide),
    (zram_request_is_8kB.2.2.2.2.2 2042).mpr (by decide)⟩

/-! ## Writeback batcher capacities -/

/-- C4: a page buffer has room for exactly `ZRAM_WB_THRESHOLD = 32` entries and a work item
for exactly `NR_ZWBS = 64` page buffers; the buffer array and the source-page array have the
same length; every position below an entry count `cnt ≤ 32` (a buffer count `idx ≤ 64`) is
a valid index of the array, and the position one past the capacity is not. -/
theorem writeback_batcher_capacities (z : zwbs) (b : zram_writeback_buffer) (w : zram_wb_work)
    (cnt i : Nat) (idx : Int) (j : Nat)
    (hcnt : cnt ≤ 32) (hi : i < cnt) (hidx : idx ≤ 64) (hj : (j : Int) < idx) :
    ZRAM_WB_THRESHOLD = 32 ∧ NR_ZWBS = 64 ∧
    z.entry.length = 32 ∧ b.zwbs.length = 64 ∧ w.src_page.length = b.zwbs.length ∧
    (z.entry.read i).isSome = true ∧
    (b.zwbs.read j).isSome = true ∧ (w.src_page.read j).isSome = true ∧
    z.entry.read 32 = none ∧ b.zwbs.read 64 = none ∧ w.src_page.read 64 = none := by
  have hz : z.entry.val.size = 32 := z.entry.property
  have hb : b.zwbs.val.size = 64 := b.zwbs.property
  have hw : w.src_page.val.size = 64 := w.src_page.property
  have hi32 : i < z.entry.val.size := by omega
  have hjb : j < b.zwbs.val.size := by omega
  have hjw : j < w.src_page.val.size := by omega
  refine ⟨rfl, rfl, hz, hb, by simp [CArray.length, hb, hw], ?_, ?_, ?_, ?_, ?_, ?_⟩
  · simp [CArray.read, Array.getElem?_eq_getElem hi32]
  · simp [CArray.read, Array.getElem?_eq_getElem hjb]
  · simp [CArray.read, Array.getElem?_eq_getElem hjw]
  · simp [CArray.read, hz]
  · simp [CArray.read, hb]
  · simp [CArray.read, hw]

/-- Witness for C4: a full page buffer (32 entries) and a full work item (64 buffers). -/
theorem writeback_batcher_capacities_witness :
    (32 ≤ 32 ∧ 31 < 32 ∧ (64 : Int) ≤ 64 ∧ ((63 : Nat) : Int) < 64) ∧
    (zwbs_zero.entry.read 31).isSome = true ∧
    (zram_writeback_buffer_zero.zwbs.read 63).isSome = true ∧
    (zram_wb_work_zero.src_page.read 63).isSome = true ∧
    zwbs_zero.entry.read 32 = none :=
  ⟨⟨by decide, by decide, by decide, by decide⟩,
    (writeback_batcher_capacities zwbs_zero zram_writeback_buffer_zero zram_wb_work_zero
      32 31 64 63 (by decide) (by decide) (by decide) (by decide)).2.2.2.2.2.1,
    (writeback_batcher_capacities zwbs_zero zram_writeback_buffer_zero zram_wb_work_zero
      32 31 64 63 (by decide) (by decide) (by decide) (by decide)).2.2.2.2.2.2.1,
    (writeback_batcher_capacities zwbs_zero zram_writeback_buffer_zero zram_wb_work_zero
      32 31 64 63 (by decide) (by decide) (by decide) (by decide)).2.2.2.2.2.2.2.1,
    (writeback_batcher_capacities zwbs_zero zram_writeback_buffer_zero zram_wb_work_zero
      32 31 64 63 (by decide) (by decide) (by decide) (by decide)).2.2.2.2.2.2.2.2.1⟩

/-! ## Worker types -/

/-- C7, as stated, fails without `CONFIG_ZRAM_LRU_WRITEBACK`: the enumeration then has
three worker types and `NR_RAMPLUS_TYPES` is 3, not 4. -/
theorem four_worker_types_counterexample :
    NR_RAMPLUS_TYPES false = 3 ∧ NR_RAMPLUS_TYPES false ≠ 4 ∧
    ramplus_type false = [PREFETCH, WRITEBACK false, POOL false] ∧
    (ramplus_type false).length = 3 := by
  decide

/-- C7, amended: with `CONFIG_ZRAM_LRU_WRITEBACK` there are exactly four worker types
`PREFETCH, LRU_WRITEBACK, WRITEBACK, POOL` and `NR_RAMPLUS_TYPES = 4`; without it
`LRU_WRITEBACK` is not declared, the worker types are `PREFETCH, WRITEBACK, POOL` and
`NR_RAMPLUS_TYPES = 3`. In both configurations the declared enumerators are pairwise
distinct, each is smaller than `NR_RAMPLUS_TYPES`, and each indexes an element of
`zram.ramplus[NR_RAMPLUS_TYPES]`. -/
theorem worker_types_index_ramplus (lru_writeback : Bool) (dev : zram lru_writeback) (t : Nat)
    (ht : t ∈ ramplus_type lru_writeback) :
    (ramplus_type lru_writeback).Nodup ∧
    (ramplus_type lru_writeback).length = NR_RAMPLUS_TYPES lru_writeback ∧
    NR_RAMPLUS_TYPES lru_writeback = (if lru_writeback then 4 else 3) ∧
    ramplus_type lru_writeback =
      (if lru_writeback then [PREFETCH, LRU_WRITEBACK, WRITEBACK true, POOL true]
        else [PREFETCH, WRITEBACK false, POOL false]) ∧
    t < NR_RAMPLUS_TYPES lru_writeback ∧
    dev.ramplus.length = NR_RAMPLUS_TYPES lru_writeback ∧
    (dev.ramplus.read t).isSome = true := by
  have hlen : dev.ramplus.val.size = NR_RAMPLUS_TYPES lru_writeback := dev.ramplus.property
  have hlt : t < NR_RAMPLUS_TYPES lru_writeback := by
    cases lru_writeback <;>
      simp [ramplus_type, NR_RAMPLUS_TYPES, POOL, WRITEBACK, LRU_WRITEBACK, PREFETCH] at ht ⊢ <;>
      omega
  have hidx : t < dev.ramplus.val.size := by omega
  refine ⟨?_, ?_, ?_, ?_, hlt, hlen, ?_⟩
  · cases lru_writeback <;> decide
  · cases lru_writeback <;> decide
  · cases lru_writeback <;> decide
  · cases lru_writeback <;> decide
  · simp [CArray.read, Array.getElem?_eq_getElem hidx]

/-- Witness for C7: the `POOL` worker of a device built with `CONFIG_ZRAM_LRU_WRITEBACK`
is worker number 3 of 4. -/
theorem worker_types_index_ramplus_witness :
    POOL true ∈ ramplus_type true ∧ POOL true = 3 ∧ POOL true < NR_RAMPLUS_TYPES true ∧
    NR_RAMPLUS_TYPES true = 4 ∧ ((zram_zero true).ramplus.read (POOL true)).isSome = true :=
  ⟨by decide, by decide,
    (worker_types_index_ramplus true (zram_zero true) (POOL true) (by decide)).2.2.2.2.1,
    (worker_types_index_ramplus true (zram_zero true) (POOL true) (by decide)).2.2.1,
    (worker_types_index_ramplus true (zram_zero true) (POOL true) (by decide)).2.2.2.2.2.2⟩

/-! ## Logical-block geometry -/

theorem flags_set_flag (B : Nat) (e : zram_table_entry) (f j : Nat) :
    (zram_set_flag B e f).flags.testBit j =
      (decide (j < B) && (e.flags.testBit j || decide (f = j))) := by
  simp only [zram_set_flag]
  rw [Nat.testBit_mod_two_pow, Nat.testBit_or, testBit_BIT]
  by_cases h1 : j < B <;> simp [h1]

theorem flags_clear_flag (B : Nat) (e : zram_table_entry) (f j : Nat) :
    (zram_clear_flag B e f).flags.testBit j =
      (e.flags.testBit j && decide (j < B) && !decide (f = j)) := by
  have hlt : BIT B f < 2 ^ B := Nat.mod_lt _ (Nat.pos_pow_of_pos B (by decide))
  have hmask : 2 ^ B - 1 - BIT B f = 2 ^ B - (BIT B f + 1) := by omega
  simp only [zram_clear_flag]
  rw [Nat.testBit_and, hmask, Nat.testBit_two_pow_sub_succ hlt, testBit_BIT]
  by_cases h1 : j < B <;> simp [h1]

theorem flags_free_page (B PS : Nat) (e : zram_table_entry) (j : Nat) :
    (zram_free_page B PS e).flags.testBit j =
      (e.flags.testBit j && decide (j < B) && decide (ZRAM_LOCK PS = j)) := by
  simp only [zram_free_page]
  rw [Nat.testBit_and, testBit_BIT, Bool.and_assoc]

theorem flags_set_obj_size (B PS : Nat) (e : zram_table_entry) (size k : Nat)
    (hs : size ≤ PAGE_SIZE PS) :
    (zram_set_obj_size B PS e size).flags.testBit (ZRAM_FLAG_SHIFT PS + k) =
      (decide (ZRAM_FLAG_SHIFT PS + k < B) && e.flags.testBit (ZRAM_FLAG_SHIFT PS + k)) := by
  have hlt : size < 2 ^ (ZRAM_FLAG_SHIFT PS + k) :=
    Nat.lt_of_lt_of_le (page_size_lt_flag_shift PS size hs)
      (Nat.pow_le_pow_right (by decide) (Nat.le_add_right _ _))
  have hidx : ZRAM_FLAG_SHIFT PS + (ZRAM_FLAG_SHIFT PS + k - ZRAM_FLAG_SHIFT PS) =
      ZRAM_FLAG_SHIFT PS + k := by omega
  simp only [zram_set_obj_size]
  rw [Nat.testBit_mod_two_pow, Nat.testBit_or, Nat.testBit_shiftLeft, Nat.testBit_shiftRight,
    hidx, Nat.testBit_lt_two_pow hlt]
  simp

theorem slot_inv_step (B PS : Nat) (e : zram_table_entry) (ev : slot_event)
    (hinv : slot_inv PS e) : slot_inv PS (slot_step B PS e ev) := by
  have hsame : ZRAM_SAME PS = ZRAM_FLAG_SHIFT PS + 1 := rfl
  have hwb : ZRAM_WB PS = ZRAM_FLAG_SHIFT PS + 2 := rfl
  have hunder : ZRAM_UNDER_WB PS = ZRAM_FLAG_SHIFT PS + 3 := rfl
  have hhuge : ZRAM_HUGE PS = ZRAM_FLAG_SHIFT PS + 4 := rfl
  have hidle : ZRAM_IDLE PS = ZRAM_FLAG_SHIFT PS + 5 := rfl
  simp only [slot_inv, zram_test_flag, hsame, hwb, hunder] at hinv ⊢
  obtain ⟨h1, h2⟩ := hinv
  cases ev with
  | write_same element =>
    simp only [slot_step, hsame, flags_set_flag, flags_free_page, ZRAM_LOCK]
    simp
  | write_compressed handle size huge =>
    simp only [slot_step]
    split
    · rename_i hg
      cases huge
      · simp [flags_set_obj_size _ _ _ _ _ hg.2, flags_free_page, ZRAM_LOCK]
      · simp [hhuge, flags_set_flag, flags_set_obj_size _ _ _ _ _ hg.2, flags_free_page,
          ZRAM_LOCK]
    · exact ⟨h1, h2⟩
  | select_for_writeback =>
    simp only [slot_step, zram_test_flag, hsame, hwb, hunder]
    split
    · rename_i hg
      simp [flags_set_flag, hg.1, hg.2.1]
    · exact ⟨h1, h2⟩
  | writeback_done blockIndex =>
    simp only [slot_step, zram_test_flag, hwb, hunder]
    split
    · rename_i hg
      have hs := (h2 hg).1
      simp [flags_set_flag, flags_clear_flag, hs]
    · exact ⟨h1, h2⟩
  | writeback_failed =>
    simp only [slot_step, hunder, flags_clear_flag]
    simp
    revert h1 h2
    cases e.flags.testBit (ZRAM_FLAG_SHIFT PS + 1) <;>
      cases e.flags.testBit (ZRAM_FLAG_SHIFT PS + 2) <;>
      cases e.flags.testBit (ZRAM_FLAG_SHIFT PS + 3) <;> simp
  | prefetch_done handle size =>
    simp only [slot_step, zram_test_flag, hwb]
    split
    · rename_i hg
      have hs : e.flags.testBit (ZRAM_FLAG_SHIFT PS + 1) = false := by
        cases hb : e.flags.testBit (ZRAM_FLAG_SHIFT PS + 1)
        · rfl
        · rw [h1 hb] at hg; exact absurd hg.1 (by decide)
      simp [flags_set_obj_size _ _ _ _ _ hg.2.2, flags_clear_flag, hs]
    · exact ⟨h1, h2⟩
  | prefetch_failed => exact ⟨h1, h2⟩
  | free =>
    simp only [slot_step, flags_free_page, ZRAM_LOCK]
    simp
  | lock =>
    simp only [slot_step, flags_set_flag, ZRAM_LOCK]
    simp
    revert h1 h2
    cases e.flags.testBit (ZRAM_FLAG_SHIFT PS + 1) <;>
      cases e.flags.testBit (ZRAM_FLAG_SHIFT PS + 2) <;>
      cases e.flags.testBit (ZRAM_FLAG_SHIFT PS + 3) <;> simp
  | unlock =>
    simp only [slot_step, flags_clear_flag, ZRAM_LOCK]
    simp
    revert h1 h2
    cases e.flags.testBit (ZRAM_FLAG_SHIFT PS + 1) <;>
      cases e.flags.testBit (ZRAM_FLAG_SHIFT PS + 2) <;>
      cases e.flags.testBit (ZRAM_FLAG_SHIFT PS + 3) <;> simp
  | mark_idle =>
    simp only [slot_step, hidle, flags_set_flag]
    simp
    revert h1 h2
    cases e.flags.testBit (ZRAM_FLAG_SHIFT PS + 1) <;>
      cases e.flags.testBit (ZRAM_FLAG_SHIFT PS + 2) <;>
      cases e.flags.testBit (ZRAM_FLAG_SHIFT PS + 3) <;> simp

theorem slot_inv_foldl (B PS : Nat) (history : List slot_event) (e : zram_table_entry)
    (hinv : slot_inv PS e) : slot_inv PS (history.foldl (slot_step B PS) e) := by
  induction history generalizing e with
  | nil => exact hinv
  | cons ev rest ih => exact ih _ (slot_inv_step B PS e ev hinv)

theorem slot_inv_init (PS : Nat) : slot_inv PS slot_init := by
  simp [slot_inv, slot_init, zram_test_flag]

theorem is_resident_eq (B PS : Nat) (e : zram_table_entry) :
    is_resident B PS e =
      (!zram_test_flag e (ZRAM_WB PS) && !zram_test_flag e (ZRAM_SAME PS) &&
        decide (e.handle ≠ 0)) := by
  unfold is_resident slot_view
  cases zram_test_flag e (ZRAM_WB PS) <;> cases zram_test_flag e (ZRAM_SAME PS) <;>
    by_cases h : e.handle = 0 <;> simp [h]

/-- C1: at every observation point of a slot (after any history of transitions of the
state machine, from a freshly configured device) at most one of the representations
resident-compressed, same-element, written-back is valid as determined by the flags word:
`ZRAM_SAME` and `ZRAM_WB` are never both set, and a slot whose `ZRAM_SAME` or `ZRAM_WB` bit
is set is not interpreted as holding an object-store handle. -/
theorem slot_at_most_one_representation (BITS_PER_LONG PAGE_SHIFT : Nat)
    (history : List slot_event) :
    ¬ (zram_test_flag (slot_after BITS_PER_LONG PAGE_SHIFT history) (ZRAM_SAME PAGE_SHIFT) = true ∧
       zram_test_flag (slot_after BITS_PER_LONG PAGE_SHIFT history) (ZRAM_WB PAGE_SHIFT) = true) ∧
    ((zram_test_flag (slot_after BITS_PER_LONG PAGE_SHIFT history) (ZRAM_SAME PAGE_SHIFT) = true ∨
      zram_test_flag (slot_after BITS_PER_LONG PAGE_SHIFT history) (ZRAM_WB PAGE_SHIFT) = true) →
      ∀ handle size, slot_view BITS_PER_LONG PAGE_SHIFT
        (slot_after BITS_PER_LONG PAGE_SHIFT history) ≠ slot_repr.Resident handle size) ∧
    valid_representations BITS_PER_LONG PAGE_SHIFT
      (slot_after BITS_PER_LONG PAGE_SHIFT history) ≤ 1 := by
  have hinv : slot_inv PAGE_SHIFT (slot_after BITS_PER_LONG PAGE_SHIFT history) :=
    slot_inv_foldl BITS_PER_LONG PAGE_SHIFT history slot_init (slot_inv_init PAGE_SHIFT)
  generalize slot_after BITS_PER_LONG PAGE_SHIFT history = e at hinv ⊢
  obtain ⟨h1, _⟩ := hinv
  refine ⟨?_, ?_, ?_⟩
  · rintro ⟨hs, hw⟩
    rw [h1 hs] at hw
    exact absurd hw (by decide)
  · intro hor handle size hview
    have hres : is_resident BITS_PER_LONG PAGE_SHIFT e = true := by
      simp [is_resident, hview]
    rw [is_resident_eq] at hres
    rcases hor with hs | hw
    · simp [hs] at hres
    · simp [hw] at hres
  · unfold valid_representations
    rw [is_resident_eq]
    unfold is_same_element is_written_back
    revert h1
    cases zram_test_flag e (ZRAM_WB PAGE_SHIFT) <;>
      cases zram_test_flag e (ZRAM_SAME PAGE_SHIFT) <;>
      by_cases h : e.handle = 0 <;> simp [h]

/-- Witness for C1: on a 64-bit kernel with 4 kB pages, a page written compressed, selected
for eviction and written to block 5 is seen as written-back and not as holding a handle;
before eviction the same slot is seen as resident, and a uniform page is seen as
same-element. -/
theorem slot_at_most_one_representation_witness :
    zram_test_flag
      (slot_after 64 12 [.write_compressed 7 100 false, .select_for_writeback,
        .writeback_done 5]) (ZRAM_WB 12) = true ∧
    slot_view 64 12
      (slot_after 64 12 [.write_compressed 7 100 false, .select_for_writeback,
        .writeback_done 5]) = slot_repr.WrittenBack 5 ∧
    (∀ handle size, slot_view 64 12
      (slot_after 64 12 [.write_compressed 7 100 false, .select_for_writeback,
        .writeback_done 5]) ≠ slot_repr.Resident handle size) ∧
    slot_view 64 12 (slot_after 64 12 [.write_compressed 7 100 false]) =
      slot_repr.Resident 7 100 ∧
    slot_view 64 12 (slot_after 64 12 [.write_compressed 7 100 false, .write_same 0]) =
      slot_repr.Same 0 :=
  ⟨by decide, by decide,
    (slot_at_most_one_representation 64 12 [.write_compressed 7 100 false,
      .select_for_writeback, .writeback_done 5]).2.1 (Or.inr (by decide)),
    by decide, by decide⟩

end Zram
